import Mathlib

/-!
Verification of the license issuance and redemption flow of the
tuntihinta-app repository: a shallow embedding of the serverless
handlers (`api/exchange.ts`, `api/verify.ts`, `api/stripe-webhook.ts`)
and the browser access gate (`src/components/AccessGate.tsx`,
`src/config.ts`), together with theorems settling the specified
properties of the token/license state machine.
-/

namespace Tuntihinta

/-- A JSON value as produced by `JSON.stringify` and consumed by
`JSON.parse` in the handlers.  Objects are association lists of fields. -/
inductive Json where
  | str (s : String)
  | num (n : Int)
  | bool (b : Bool)
  | null
  | obj (fields : List (String × Json))

/-- A value held in the key-value store.  The code stores strings written
by `JSON.stringify` (modelled as `json j`); `malformed raw` stands for any
stored string that `JSON.parse` rejects. -/
inductive StoreVal where
  | json (j : Json)
  | malformed (raw : String)

/-- Property access `j.name` on a parsed JSON value: a field of an object,
`undefined` (`none`) otherwise. -/
def jsonField : Json → String → Option Json
  | .obj fields, name => fields.lookup name
  | _, _ => none

/-- The key-value store (`@vercel/kv`): an association list of entries plus
an availability flag.  When `up` is false every operation throws, which is
how an unreachable store behaves. -/
structure KV where
  up : Bool
  entries : List (String × StoreVal)

/-- Current value under a key. -/
def KV.lookup (kv : KV) (k : String) : Option StoreVal :=
  kv.entries.lookup k

/-- `kv.get(k)`: the stored value, or an exception when the store is
unreachable. -/
def kvGet (kv : KV) (k : String) : Except Unit (Option StoreVal) :=
  if kv.up then .ok (kv.lookup k) else .error ()

/-- Overwrite semantics of `kv.set` on the entry list. -/
def setEntries (es : List (String × StoreVal)) (k : String) (v : StoreVal) :
    List (String × StoreVal) :=
  (k, v) :: es.filter (fun p => p.1 != k)

/-- `kv.set(k, v)`: write-through, or an exception when unreachable. -/
def kvSet (kv : KV) (k : String) (v : StoreVal) : Except Unit KV :=
  if kv.up then .ok ⟨true, setEntries kv.entries k v⟩ else .error ()

/-- `kv.del(k)`: remove the entry, or an exception when unreachable. -/
def kvDel (kv : KV) (k : String) : Except Unit KV :=
  if kv.up then .ok ⟨true, kv.entries.filter (fun p => p.1 != k)⟩ else .error ()

/-- An HTTP JSON response `res.status(status).json({ok, license?, reason?})`
as sent by the exchange and verify handlers. -/
structure Resp where
  status : Nat
  ok : Bool
  license : Option Json
  reason : Option String

/-- Token exchange endpoint, `api/exchange.ts`.  Input: request method, the
`token` query parameter, and the store.  Output: the response and the store
after the call, or `.error ()` when an exception escapes the handler
(a thrown store operation or a failed `JSON.parse`). -/
def exchangeHandler (method : String) (tokenParam : Option String) (kv : KV) :
    Except Unit (Resp × KV) :=
  if method ≠ "GET" then
    .ok (⟨405, false, none, some "method"⟩, kv)
  else
    let token := tokenParam.getD ""
    if token = "" then
      .ok (⟨400, false, none, some "missing token"⟩, kv)
    else do
      let data ← kvGet kv ("token:" ++ token)
      match data with
      | none => .ok (⟨200, false, none, none⟩, kv)
      | some (.malformed s) =>
          if s = "" then .ok (⟨200, false, none, none⟩, kv)
          else .error ()
      | some (.json j) =>
          match j with
          | .null => .error ()
          | j =>
              let license := jsonField j "license"
              do
                let kv1 ← kvDel kv ("token:" ++ token)
                .ok (⟨200, true, license, none⟩, kv1)

/-- Manual verification endpoint, `api/verify.ts`.  Input: request method,
the `key` extracted from the request body (`none` when absent), and the
store.  Output: the response and the store, or `.error ()` when an
exception escapes (thrown store operation or failed `JSON.parse` of the
stored record). -/
def verifyHandler (method : String) (keyParam : Option String) (kv : KV) :
    Except Unit (Resp × KV) :=
  if method ≠ "POST" then
    .ok (⟨405, false, none, some "method"⟩, kv)
  else
    match keyParam with
    | none => .ok (⟨200, false, none, some "missing"⟩, kv)
    | some key =>
      if key = "" then
        .ok (⟨200, false, none, some "missing"⟩, kv)
      else do
        let data ← kvGet kv ("license:" ++ key)
        match data with
        | none => .ok (⟨200, false, none, none⟩, kv)
        | some (.malformed s) =>
            if s = "" then .ok (⟨200, false, none, none⟩, kv)
            else .error ()
        | some (.json j) =>
            match j with
            | .null => .error ()
            | j =>
                match jsonField j "active" with
                | some (.bool true) => .ok (⟨200, true, none, none⟩, kv)
                | _ => .ok (⟨200, false, none, none⟩, kv)

/-- A Stripe customer as returned by `stripe.customers.retrieve`. -/
structure Customer where
  deleted : Bool
  email : Option String

/-- The parts of a Stripe event that `api/stripe-webhook.ts` reads: the
event type and id, and the fields consulted by `getEmailFromEvent`
(`session.customer_details?.email`, `session.customer_email`,
`invoice.customer_email`, and `invoice.customer` when it is a string id). -/
structure StripeEvent where
  type : String
  id : String
  customerDetailsEmail : Option String
  customerEmail : Option String
  invoiceCustomerEmail : Option String
  invoiceCustomer : Option String

/-- JavaScript truthiness on a nullable string: the empty string and
null/undefined are falsy. -/
def jsTruthy : Option String → Option String
  | some s => if s = "" then none else some s
  | none => none

/-- JavaScript `a || b` over nullable strings (`null` when both falsy). -/
def jsOrElse (a b : Option String) : Option String :=
  match jsTruthy a with
  | some s => some s
  | none => jsTruthy b

/-- `getEmailFromEvent` of `api/stripe-webhook.ts`: the ordered fallback
chain resolving the purchaser's address.  `retrieve` models
`stripe.customers.retrieve`, which may throw. -/
def getEmailFromEvent (retrieve : String → Except Unit Customer)
    (event : StripeEvent) : Except Unit (Option String) :=
  if event.type = "checkout.session.completed" then
    .ok (jsOrElse event.customerDetailsEmail event.customerEmail)
  else if event.type = "invoice.paid" then
    match jsTruthy event.invoiceCustomerEmail with
    | some e => .ok (some e)
    | none =>
      match event.invoiceCustomer with
      | some cid => do
          let c ← retrieve cid
          if !c.deleted then .ok (jsTruthy c.email) else .ok none
      | none => .ok none
  else
    .ok none

/-- The license record written by the webhook:
`JSON.stringify({email, active: true, createdAt, evt})`. -/
def licenseRecordJson (email : String) (createdAt : Int) (evtId : String) : Json :=
  .obj [("email", .str email), ("active", .bool true),
        ("createdAt", .num createdAt), ("evt", .str evtId)]

/-- The token record written by the webhook:
`JSON.stringify({license, createdAt})`. -/
def tokenRecordJson (license : String) (createdAt : Int) : Json :=
  .obj [("license", .str license), ("createdAt", .num createdAt)]

/-- `.toUpperCase()` on the ASCII strings produced by `uuid()`. -/
def strUpper (s : String) : String :=
  ⟨s.data.map Char.toUpper⟩

/-- The `.replace` call that drops every dash from the raw uuid. -/
def strNoDash (s : String) : String :=
  ⟨s.data.filter (fun c => c != '-')⟩

/-- The notification email sent by the webhook; its html embeds the
license code and the token. -/
structure EmailMsg where
  toAddr : String
  license : String
  token : String

/-- One inbound webhook request together with the environmental
non-determinism the handler consumes: whether the raw body could be read,
the `stripe-signature` header, whether `constructEvent` accepts the
signature, the parsed event, the two fresh `uuid()` draws, `Date.now()`,
and whether `resend.emails.send` succeeds. -/
structure WebhookInput where
  method : String
  bodyReadOk : Bool
  sig : Option String
  sigValid : Bool
  event : StripeEvent
  licUuid : String
  tokUuid : String
  now : Int
  mailOk : Bool

/-- Result of one webhook invocation: HTTP status, the `ok` flag of the
JSON body, the store afterwards, and the notifications dispatched. -/
structure WebhookResult where
  status : Nat
  ok : Bool
  kv : KV
  emails : List EmailMsg

/-- The event-processing section of the webhook handler (the body of its
outer `try`): filter to qualifying event kinds, resolve the address,
generate license and token, write both records (store failure absorbed),
send the notification (send failure absorbed).  `.error ()` when the
uncaught `getEmailFromEvent` call throws. -/
def processEvent (retrieve : String → Except Unit Customer)
    (inp : WebhookInput) (kv : KV) : Except Unit (KV × List EmailMsg) :=
  if inp.event.type = "checkout.session.completed"
      ∨ inp.event.type = "invoice.paid" then do
    let email? ← getEmailFromEvent retrieve inp.event
    match email? with
    | none => .ok (kv, [])
    | some email =>
        let license := strUpper inp.licUuid
        let token := strUpper (strNoDash inp.tokUuid)
        let kv1 :=
          match (do
            let a ← kvSet kv ("license:" ++ email)
              (.json (licenseRecordJson email inp.now inp.event.id))
            kvSet a ("token:" ++ token)
              (.json (tokenRecordJson license inp.now))) with
          | .ok k => k
          | .error _ => kv
        let emails := if inp.mailOk then [⟨email, license, token⟩] else []
        .ok (kv1, emails)
  else
    .ok (kv, [])

/-- Purchase Event Intake, `api/stripe-webhook.ts` main handler: method
check, raw-body read, signature header, signature verification; then the
event processing in a `try` whose `catch` still answers 200. -/
def stripeWebhookHandler (retrieve : String → Except Unit Customer)
    (inp : WebhookInput) (kv : KV) : WebhookResult :=
  if inp.method ≠ "POST" then ⟨405, false, kv, []⟩
  else if !inp.bodyReadOk then ⟨400, false, kv, []⟩
  else
    match inp.sig with
    | none => ⟨400, false, kv, []⟩
    | some _ =>
      if !inp.sigValid then ⟨400, false, kv, []⟩
      else
        match processEvent retrieve inp kv with
        | .ok (kv1, emails) => ⟨200, true, kv1, emails⟩
        | .error _ => ⟨200, false, kv, []⟩

/-- `hasAccess()` of `src/config.ts`: true when the gate is disabled,
otherwise true exactly when a non-empty string sits under the local
storage key. -/
def hasAccess (requireAccess : Bool) (ls : Option String) : Bool :=
  if !requireAccess then true
  else (ls.getD "") ≠ ""

/-- `grantAccess(key)` of `src/config.ts`: store the key locally. -/
def grantAccess (key : String) : Option String :=
  some key

/-- `revokeAccess()` of `src/config.ts`: remove the local credential. -/
def revokeAccess : Option String :=
  none

/-- Body of the `/api/exchange` JSON response as seen by the client. -/
structure ExchangeClientResp where
  ok : Bool
  license : Option String

/-- The network behaviour the gate's mount effect can observe: the result
of `fetch("/api/exchange?...")` (`none` models a thrown fetch) and the
result of the `fetch("/api/verify", ...)` inside `verifyRemote` (`none`
models a thrown fetch, e.g. an unreachable backing store). -/
structure GateEnv where
  exchangeFetch : String → Option ExchangeClientResp
  verifyFetch : String → Option Bool

/-- `verifyRemote` of `AccessGate.tsx`: `j.ok === true`, with every thrown
fetch caught and turned into `false`. -/
def verifyRemote (env : GateEnv) (key : String) : Bool :=
  match env.verifyFetch key with
  | some b => b
  | none => false

/-- State of the gate after its mount effect: the local storage value, the
`loading` flag, the `error` message, and the network calls that were
made. -/
structure GateOutcome where
  localStore : Option String
  loading : Bool
  error : String
  calls : List String

/-- The saved-credential tail of the mount effect: read
`currentAccessKey()`; when truthy, `verifyRemote` it and set the error
message on failure; in every case end with `loading = false`. -/
def gateSavedStep (env : GateEnv) (ls : Option String) (err : String)
    (calls : List String) : GateOutcome :=
  match jsTruthy ls with
  | some saved =>
      let ok := verifyRemote env saved
      let err1 := if ok then err else "Lisenssi ei ole voimassa. Syötä uusi avain."
      ⟨ls, false, err1, calls ++ ["verify"]⟩
  | none => ⟨ls, false, err, calls⟩

/-- The mount effect of `AccessGate.tsx`: with the gate disabled, stop at
once; otherwise run the URL-token exchange branch (an uncaught thrown
fetch leaves `loading` true forever) and then the saved-credential
branch. -/
def gateEffect (env : GateEnv) (requireAccess : Bool)
    (urlToken : Option String) (ls : Option String) : GateOutcome :=
  if !requireAccess then ⟨ls, false, "", []⟩
  else
    match urlToken with
    | some t =>
        (match env.exchangeFetch t with
        | none => ⟨ls, true, "", ["exchange"]⟩
        | some j =>
            if j.ok ∧ jsTruthy j.license ≠ none then
              gateSavedStep env j.license "" ["exchange"]
            else
              gateSavedStep env ls "Token ei kelpaa tai on jo käytetty." ["exchange"])
    | none => gateSavedStep env ls "" []

/-- What the gate component returns on a render. -/
inductive RenderState where
  | content
  | loadingScreen
  | locked

/-- The render of `AccessGate.tsx` (its early returns): bypass when the
gate is disabled, the loading screen while loading, the protected content
when `hasAccess()`, the manual-entry prompt otherwise. -/
def gateRender (requireAccess : Bool) (loading : Bool) (ls : Option String) :
    RenderState :=
  if !requireAccess then .content
  else if loading then .loadingScreen
  else if hasAccess requireAccess ls then .content
  else .locked

/-- One in-flight redeem call of `api/exchange.ts`, broken at its store
operations: `pc = 0` before the `kv.get`, `pc = 1` between the `kv.get`
and the `kv.del`, `pc = 2` finished (with its response, or `none` when an
exception escaped). -/
structure RedeemProc where
  pc : Nat
  data : Option StoreVal
  resp : Option Resp

/-- One atomic step of a redeem call against the shared entry list: at
`pc = 0` perform the `kv.get` (answering at once when absent); at `pc = 1`
run `JSON.parse`, the `kv.del` and the response. -/
def redeemStep (token : String) (es : List (String × StoreVal))
    (p : RedeemProc) : List (String × StoreVal) × RedeemProc :=
  match p.pc with
  | 0 =>
      (match es.lookup ("token:" ++ token) with
      | none => (es, ⟨2, none, some ⟨200, false, none, none⟩⟩)
      | some (.malformed "") => (es, ⟨2, some (.malformed ""), some ⟨200, false, none, none⟩⟩)
      | some v => (es, ⟨1, some v, none⟩))
  | 1 =>
      (match p.data with
      | some (.json .null) => (es, ⟨2, p.data, none⟩)
      | some (.json j) =>
          let es1 := es.filter (fun e => e.1 != ("token:" ++ token))
          (es1, ⟨2, p.data, some ⟨200, true, jsonField j "license", none⟩⟩)
      | _ => (es, ⟨2, p.data, none⟩))
  | _ => (es, p)

/-- Run two racing redeem calls A and B on one token under a schedule:
`false` steps A, `true` steps B. -/
def runRace (token : String) : List Bool →
    List (String × StoreVal) × RedeemProc × RedeemProc →
    List (String × StoreVal) × RedeemProc × RedeemProc
  | [], s => s
  | c :: rest, (es, a, b) =>
      if c then
        let (es1, b1) := redeemStep token es b
        runRace token rest (es1, a, b1)
      else
        let (es1, a1) := redeemStep token es a
        runRace token rest (es1, a1, b)

/-- A `stripe.customers.retrieve` that throws; the secondary lookup is
never reached in the concrete scenarios below. -/
def retrieveThrows : String → Except Unit Customer :=
  fun _ => .error ()

/-- An empty, reachable store. -/
def kvEmptyUp : KV :=
  ⟨true, []⟩

/-- An unreachable store. -/
def kvDown : KV :=
  ⟨false, []⟩

/-- A qualifying purchase event: checkout completed for
`a@example.com`, provider event id `evt_1`. -/
def evtPurchase : StripeEvent :=
  ⟨"checkout.session.completed", "evt_1", some "a@example.com", none, none, none⟩

/-- A signed delivery of `evtPurchase` with uuid draws `aaa-lic` and
`tt-tok` (so license code `AAA-LIC` and token `TTTOK`). -/
def inpPurchase : WebhookInput :=
  ⟨"POST", true, some "sig", true, evtPurchase, "aaa-lic", "tt-tok", 0, true⟩

/-- A second signed delivery of the same event `evt_1` with fresh uuid
draws `bbb-lic` and `uu-tok`. -/
def inpPurchaseAgain : WebhookInput :=
  ⟨"POST", true, some "sig", true, evtPurchase, "bbb-lic", "uu-tok", 5, true⟩

/-- Result of the first delivery of `evt_1` against an empty store. -/
def runPurchase1 : WebhookResult :=
  stripeWebhookHandler retrieveThrows inpPurchase kvEmptyUp

/-- Result of the duplicate delivery of `evt_1` right after the first. -/
def runPurchase2 : WebhookResult :=
  stripeWebhookHandler retrieveThrows inpPurchaseAgain runPurchase1.kv

/-- The store after redeeming `TTTOK` from `runPurchase1.kv`: only the
license record keyed by the purchaser email remains. -/
def kvAfterRedeem : KV :=
  ⟨true, [("license:a@example.com", .json (licenseRecordJson "a@example.com" 0 "evt_1"))]⟩

/-- Store whose record under `license:K` is an unparseable string. -/
def kvMalformedLicense : KV :=
  ⟨true, [("license:K", .malformed "notjson")]⟩

/-- Store holding an active license record under `license:K`. -/
def kvActiveLicense : KV :=
  ⟨true, [("license:K", .json (licenseRecordJson "K" 0 "evt_1"))]⟩

/-- The shared entries at the start of the redeem race: one token record. -/
def raceEntries : List (String × StoreVal) :=
  [("token:TTTOK", .json (tokenRecordJson "AAA-LIC" 0))]

/-- A redeem call that has not started yet. -/
def raceInit : RedeemProc :=
  ⟨0, none, none⟩

/-- The race `A.get, B.get, A.del, B.del` of two redeems of `TTTOK`. -/
def raceResult : List (String × StoreVal) × RedeemProc × RedeemProc :=
  runRace "TTTOK" [false, true, false, true] (raceEntries, raceInit, raceInit)

/-- Client environment in which the remote verification answers
`{ok:false}` (license not active). -/
def envInactive : GateEnv :=
  ⟨fun _ => none, fun _ => some false⟩

/-- Client environment in which every fetch throws (backing store or
network unreachable). -/
def envUnreachable : GateEnv :=
  ⟨fun _ => none, fun _ => none⟩

/-- Filtering out a key from the entry list makes a later lookup of that
key miss. -/
theorem lookup_filter_self (es : List (String × StoreVal)) (k : String) :
    (es.filter (fun p => p.1 != k)).lookup k = none := by
  induction es with
  | nil => rfl
  | cons e rest ih =>
    by_cases h : e.1 = k
    · simp [List.filter_cons, h, ih]
    · have hb : (k == e.1) = false := beq_eq_false_iff_ne.mpr (Ne.symm h)
      simp [List.filter_cons, h, List.lookup, hb, ih]

/-- C1: for every token `t` that sits in the store under `token:t` with a
webhook-issued record mapping it to license `L`, the first call to the
exchange endpoint answers `ok:true` with `L` and removes the entry, and a
second sequential call answers `ok:false`: two sequential redeems of one
issued token yield the license on exactly the first. -/
theorem c1_redeem_is_single_use_sequential (t L : String) (c : Int) (kv : KV)
    (ht : t ≠ "") (hup : kv.up = true)
    (hlook : kv.lookup ("token:" ++ t) = some (.json (tokenRecordJson L c))) :
    ∃ kv1 : KV,
      exchangeHandler "GET" (some t) kv = .ok (⟨200, true, some (.str L), none⟩, kv1) ∧
      kv1.lookup ("token:" ++ t) = none ∧
      exchangeHandler "GET" (some t) kv1 = .ok (⟨200, false, none, none⟩, kv1) := by
  refine ⟨⟨true, kv.entries.filter (fun p => p.1 != ("token:" ++ t))⟩, ?_, ?_, ?_⟩
  · simp [exchangeHandler, ht, kvGet, hup, hlook, kvDel, tokenRecordJson, jsonField,
      Bind.bind, Except.bind, List.lookup]
  · exact lookup_filter_self kv.entries ("token:" ++ t)
  · simp [exchangeHandler, ht, kvGet, KV.lookup, lookup_filter_self,
      Bind.bind, Except.bind]

/-- C1 witness: the single-use law evaluated on the concrete store holding
`token:TTTOK ↦ {license: AAA-LIC}`. -/
theorem c1_redeem_is_single_use_sequential_witness :
    ∃ kv1 : KV,
      exchangeHandler "GET" (some "TTTOK") ⟨true, raceEntries⟩ =
        .ok (⟨200, true, some (.str "AAA-LIC"), none⟩, kv1) ∧
      kv1.lookup ("token:" ++ "TTTOK") = none ∧
      exchangeHandler "GET" (some "TTTOK") kv1 = .ok (⟨200, false, none, none⟩, kv1) :=
  c1_redeem_is_single_use_sequential "TTTOK" "AAA-LIC" 0 ⟨true, raceEntries⟩
    (by decide) rfl rfl

/-- C2: the claimed activate-issue-redeem-verify round trip fails on the
code.  After the webhook processes a qualifying purchase for
`a@example.com` (storing the license record under the email but binding
the token to a fresh opaque uuid), redeeming the issued token `TTTOK`
returns the uuid `AAA-LIC`, and verifying `AAA-LIC` answers `ok:false`;
only the email itself verifies as active. -/
theorem c2_redeem_verify_roundtrip_fails_on_code :
    runPurchase1.status = 200 ∧
    runPurchase1.kv.lookup "token:TTTOK" = some (.json (tokenRecordJson "AAA-LIC" 0)) ∧
    exchangeHandler "GET" (some "TTTOK") runPurchase1.kv =
      .ok (⟨200, true, some (.str "AAA-LIC"), none⟩, kvAfterRedeem) ∧
    verifyHandler "POST" (some "AAA-LIC") kvAfterRedeem =
      .ok (⟨200, false, none, none⟩, kvAfterRedeem) ∧
    verifyHandler "POST" (some "a@example.com") kvAfterRedeem =
      .ok (⟨200, true, none, none⟩, kvAfterRedeem) :=
  ⟨rfl, rfl, rfl, rfl, rfl⟩

/-- C3: duplicate delivery is not deduplicated.  Processing the same
signed event `evt_1` twice dispatches a second notification and issues a
second live token: the handler holds no `setIfAbsent` dedup marker, so
the claimed at-most-one-notification property fails on the code. -/
theorem c3_duplicate_delivery_sends_second_notification :
    runPurchase1.status = 200 ∧ runPurchase2.status = 200 ∧
    runPurchase1.emails = [⟨"a@example.com", "AAA-LIC", "TTTOK"⟩] ∧
    runPurchase2.emails = [⟨"a@example.com", "BBB-LIC", "UUTOK"⟩] ∧
    runPurchase2.kv.lookup "token:TTTOK" = some (.json (tokenRecordJson "AAA-LIC" 0)) ∧
    runPurchase2.kv.lookup "token:UUTOK" = some (.json (tokenRecordJson "BBB-LIC" 5)) :=
  ⟨rfl, rfl, rfl, rfl, rfl, rfl⟩

/-- C4: exactly-once redemption fails under the race.  Under the
interleaving `A.get, B.get, A.del, B.del` of the two store operations of
`api/exchange.ts`, both racing redeem calls of token `TTTOK` answer
`ok:true` with the license, refuting the claim that one of them observes
absent under every interleaving. -/
theorem c4_race_both_redeems_observe_license :
    (raceResult.2.1).resp = some ⟨200, true, some (.str "AAA-LIC"), none⟩ ∧
    (raceResult.2.2).resp = some ⟨200, true, some (.str "AAA-LIC"), none⟩ ∧
    raceResult.1 = [] :=
  ⟨rfl, rfl, rfl⟩

/-- C5: the gate fallback property fails on the code.  With a persisted
credential `K` and remote verification reporting not active (or the
store unreachable), the mount effect merely sets an error message: the
credential is not cleared and the gate still renders the protected
content. -/
theorem c5_gate_unlocks_despite_inactive_license :
    (gateEffect envInactive true none (some "K")).localStore = some "K" ∧
    (gateEffect envInactive true none (some "K")).error =
      "Lisenssi ei ole voimassa. Syötä uusi avain." ∧
    gateRender true (gateEffect envInactive true none (some "K")).loading
      (gateEffect envInactive true none (some "K")).localStore = .content ∧
    (gateEffect envUnreachable true none (some "K")).localStore = some "K" ∧
    gateRender true (gateEffect envUnreachable true none (some "K")).loading
      (gateEffect envUnreachable true none (some "K")).localStore = .content :=
  ⟨rfl, rfl, rfl, rfl, rfl⟩

/-- C6 counterexample: a malformed record under `license:K` makes the
verify endpoint propagate an exception instead of answering `ok:false`,
refuting the claim that a malformed record yields false and that the
operation never propagates an error to the caller. -/
theorem c6_malformed_record_throws_counterexample :
    verifyHandler "POST" (some "K") kvMalformedLicense = .error () :=
  rfl

/-- C6 amended: on a reachable store, verification answers `ok:false`
for an absent record, answers `ok:true` exactly when the record parses
with `active` strictly `true`, but a malformed (unparseable) record makes
the endpoint propagate an exception rather than answer false. -/
theorem c6_verify_active_amended (k : String) (kv : KV)
    (hup : kv.up = true) (hk : k ≠ "") :
    (kv.lookup ("license:" ++ k) = none →
        verifyHandler "POST" (some k) kv = .ok (⟨200, false, none, none⟩, kv)) ∧
    (∀ j, kv.lookup ("license:" ++ k) = some (.json j) →
        (verifyHandler "POST" (some k) kv = .ok (⟨200, true, none, none⟩, kv) ↔
          jsonField j "active" = some (.bool true))) ∧
    (∀ s, kv.lookup ("license:" ++ k) = some (.malformed s) → s ≠ "" →
        verifyHandler "POST" (some k) kv = .error ()) := by
  refine ⟨?_, ?_, ?_⟩
  · intro h
    simp [verifyHandler, hk, kvGet, hup, h, Bind.bind, Except.bind]
  · intro j hj
    cases j with
    | null => simp [verifyHandler, hk, kvGet, hup, hj, Bind.bind, Except.bind, jsonField]
    | str s => simp [verifyHandler, hk, kvGet, hup, hj, Bind.bind, Except.bind, jsonField]
    | num n => simp [verifyHandler, hk, kvGet, hup, hj, Bind.bind, Except.bind, jsonField]
    | bool b => simp [verifyHandler, hk, kvGet, hup, hj, Bind.bind, Except.bind, jsonField]
    | obj fields =>
      cases hact : (fields.lookup "active") with
      | none => simp [verifyHandler, hk, kvGet, hup, hj, Bind.bind, Except.bind, jsonField, hact]
      | some v =>
        cases v with
        | bool b =>
          cases b with
          | true => simp [verifyHandler, hk, kvGet, hup, hj, Bind.bind, Except.bind, jsonField, hact]
          | false => simp [verifyHandler, hk, kvGet, hup, hj, Bind.bind, Except.bind, jsonField, hact]
        | null => simp [verifyHandler, hk, kvGet, hup, hj, Bind.bind, Except.bind, jsonField, hact]
        | str s => simp [verifyHandler, hk, kvGet, hup, hj, Bind.bind, Except.bind, jsonField, hact]
        | num n => simp [verifyHandler, hk, kvGet, hup, hj, Bind.bind, Except.bind, jsonField, hact]
        | obj f2 => simp [verifyHandler, hk, kvGet, hup, hj, Bind.bind, Except.bind, jsonField, hact]
  · intro s hs hne
    simp [verifyHandler, hk, kvGet, hup, hs, hne, Bind.bind, Except.bind]

/-- C6 witness: the amended law evaluated on the concrete store holding
an active record under `license:K`. -/
theorem c6_verify_active_amended_witness :
    (kvActiveLicense.lookup ("license:" ++ "K") = none →
        verifyHandler "POST" (some "K") kvActiveLicense =
          .ok (⟨200, false, none, none⟩, kvActiveLicense)) ∧
    (∀ j, kvActiveLicense.lookup ("license:" ++ "K") = some (.json j) →
        (verifyHandler "POST" (some "K") kvActiveLicense =
            .ok (⟨200, true, none, none⟩, kvActiveLicense) ↔
          jsonField j "active" = some (.bool true))) ∧
    (∀ s, kvActiveLicense.lookup ("license:" ++ "K") = some (.malformed s) → s ≠ "" →
        verifyHandler "POST" (some "K") kvActiveLicense = .error ()) :=
  c6_verify_active_amended "K" kvActiveLicense rfl (by decide)

/-- C7: store failures are not degraded to `ok:false`.  With the store
unreachable, both the exchange endpoint and the verify endpoint let the
thrown store exception escape the handler instead of answering a normal
`ok:false`, refuting the claim that such failures are never surfaced as a
distinct hard error. -/
theorem c7_store_failure_escapes_handlers :
    exchangeHandler "GET" (some "TTTOK") kvDown = .error () ∧
    verifyHandler "POST" (some "K") kvDown = .error () :=
  ⟨rfl, rfl⟩

/-- C8: once the signature check has passed (method POST, body read,
signature header present and valid), the webhook answers HTTP 200
whatever the event kind, address resolution, store writes, the secondary
Stripe lookup or the notification dispatch do; equivalently, a non-200
answer can only arise at or before the signature check. -/
theorem c8_ack_200_after_valid_signature
    (retrieve : String → Except Unit Customer) (inp : WebhookInput)
    (kv : KV) (hm : inp.method = "POST") (hb : inp.bodyReadOk = true)
    (hs : inp.sig ≠ none) (hv : inp.sigValid = true) :
    (stripeWebhookHandler retrieve inp kv).status = 200 := by
  unfold stripeWebhookHandler
  cases hsig : inp.sig with
  | none => exact absurd hsig hs
  | some s =>
    cases hpe : processEvent retrieve inp kv with
    | ok v =>
      obtain ⟨kv1, emails⟩ := v
      simp [hm, hb, hsig, hv, hpe]
    | error e => simp [hm, hb, hsig, hv, hpe]

/-- C8 witness: the acknowledgement law evaluated on the concrete
purchase delivery `inpPurchase` against an empty store, with a throwing
secondary Stripe lookup. -/
theorem c8_ack_200_after_valid_signature_witness :
    (stripeWebhookHandler retrieveThrows inpPurchase kvEmptyUp).status = 200 :=
  c8_ack_200_after_valid_signature retrieveThrows inpPurchase kvEmptyUp
    rfl rfl (by simp [inpPurchase]) rfl

/-- C9: with the access-control toggle off, the gate is bypassed
entirely: the mount effect makes no network call and changes nothing,
`hasAccess()` is true, and the protected content renders whatever the
local and remote state are. -/
theorem c9_gate_bypass_when_disabled (env : GateEnv)
    (urlToken ls : Option String) (loading : Bool) :
    gateEffect env false urlToken ls = ⟨ls, false, "", []⟩ ∧
    gateRender false loading ls = .content ∧
    hasAccess false ls = true := by
  refine ⟨?_, ?_, ?_⟩ <;> simp [gateEffect, gateRender, hasAccess]

/-- C10: the rendering decision depends only on the local credential.
For every non-empty key `k`, after `grantAccess(k)` the gate reports
access and renders the protected content after its mount effect, and two
runs that differ only in the remote behaviour render identically. -/
theorem c10_render_depends_only_on_local_credential
    (env1 env2 : GateEnv) (k : String) (hk : k ≠ "") :
    hasAccess true (grantAccess k) = true ∧
    (gateEffect env1 true none (grantAccess k)).localStore = grantAccess k ∧
    gateRender true (gateEffect env1 true none (grantAccess k)).loading
      (gateEffect env1 true none (grantAccess k)).localStore = .content ∧
    gateRender true (gateEffect env1 true none (grantAccess k)).loading
      (gateEffect env1 true none (grantAccess k)).localStore =
      gateRender true (gateEffect env2 true none (grantAccess k)).loading
        (gateEffect env2 true none (grantAccess k)).localStore := by
  simp [hasAccess, grantAccess, gateEffect, gateSavedStep, jsTruthy, hk, gateRender]

/-- C10 witness: the locality law evaluated at key `K` against the
inactive-remote and unreachable-remote environments. -/
theorem c10_render_depends_only_on_local_credential_witness :
    hasAccess true (grantAccess "K") = true ∧
    (gateEffect envInactive true none (grantAccess "K")).localStore = grantAccess "K" ∧
    gateRender true (gateEffect envInactive true none (grantAccess "K")).loading
      (gateEffect envInactive true none (grantAccess "K")).localStore = .content ∧
    gateRender true (gateEffect envInactive true none (grantAccess "K")).loading
      (gateEffect envInactive true none (grantAccess "K")).localStore =
      gateRender true (gateEffect envUnreachable true none (grantAccess "K")).loading
        (gateEffect envUnreachable true none (grantAccess "K")).localStore :=
  c10_render_depends_only_on_local_credential envInactive envUnreachable "K" (by decide)

end Tuntihinta
